import Mathlib

/-!
Verification of the request-processing core of the zato repository.

Shallow embedding of:
  * `zato-common/src/zato/common/__init__.py` (URL types, PORTS offset table),
  * `zato-broker/src/zato/broker/client.py` (ZMQSub subscriber loop, close),
  * `zato-server/src/zato/server/base/parallel.py` (wrap_error_message,
    HTTPException, the tech-account security validator, handle_security,
    executeRequest, and the _TaskDispatcher setThreadCount / handlerThread pair).

Python conventions are modelled as follows: raising an exception is an
`Except` error value, machine-external effects (the sha256 hex digest, the
service registry handler) are explicit function parameters, logging is an
explicit list of emitted strings, and per-request mutable state is threaded
through return values.  Strings use `\x27` escapes for apostrophes.
-/

/-- Helper with the semantics of the Python `str.replace` method for a
non-empty pattern: replace every occurrence of `pat` by `rep`, scanning left
to right.  The fuel argument (instantiated with the length of the string)
keeps the recursion structural so the kernel can evaluate it. -/
def replaceFuel (pat rep : List Char) : ℕ → List Char → List Char
  | 0, l => l
  | _ + 1, [] => []
  | f + 1, c :: cs =>
    if pat.isPrefixOf (c :: cs) then
      rep ++ replaceFuel pat rep f (List.drop (pat.length - 1) cs)
    else
      c :: replaceFuel pat rep f cs

/-- Python `s.replace(pat, rep)` for a non-empty `pat`. -/
def strReplace (s pat rep : String) : String :=
  ⟨replaceFuel pat.data rep.data s.data.length s.data⟩

instance {ε α : Type} [DecidableEq ε] [DecidableEq α] : DecidableEq (Except ε α) := fun x y =>
  match x, y with
  | .ok a, .ok b => decidable_of_iff (a = b) (by simp)
  | .error a, .error b => decidable_of_iff (a = b) (by simp)
  | .ok _, .error _ => isFalse (fun h => Except.noConfusion h)
  | .error _, .ok _ => isFalse (fun h => Except.noConfusion h)

/-! ## zato.common: URL types and the fixed broker port-offset table -/

/-- Source: `URL_TYPE.SOAP` in `zato-common/src/zato/common/__init__.py`.
The name `ZATO_URL_TYPE_SOAP` imported by `parallel.py` is bound to this
value; the envelope transport tag is the string `soap`. -/
def ZATO_URL_TYPE_SOAP : String := "soap"

/-- Source: `URL_TYPE.PLAIN_HTTP` in `zato-common/src/zato/common/__init__.py`. -/
def ZATO_URL_TYPE_PLAIN_HTTP : String := "plain_http"

/-! Source: the `PORTS` bunch of `zato-common/src/zato/common/__init__.py`,
lines 205-235: how much the various ZeroMQ ports are shifted with regard to
the base port configured for the cluster. -/
namespace PORTS

def BROKER_PUSH_WORKER_THREAD_PULL : ℕ := 0
def WORKER_THREAD_PUSH_BROKER_PULL : ℕ := 1
def BROKER_PUB_WORKER_THREAD_SUB : ℕ := 2

def BROKER_PUSH_SINGLETON_PULL : ℕ := 10
def SINGLETON_PUSH_BROKER_PULL : ℕ := 11

def BROKER_PUSH_PUBLISHING_CONNECTOR_AMQP_PULL : ℕ := 20
def PUBLISHING_CONNECTOR_AMQP_PUSH_BROKER_PULL : ℕ := 21
def BROKER_PUB_PUBLISHING_CONNECTOR_AMQP_SUB : ℕ := 22

def BROKER_PUSH_CONSUMING_CONNECTOR_AMQP_PULL : ℕ := 30
def CONSUMING_CONNECTOR_AMQP_PUSH_BROKER_PULL : ℕ := 31
def BROKER_PUB_CONSUMING_CONNECTOR_AMQP_SUB : ℕ := 32

def BROKER_PUSH_PUBLISHING_CONNECTOR_JMS_WMQ_PULL : ℕ := 40
def PUBLISHING_CONNECTOR_JMS_WMQ_PUSH_BROKER_PULL : ℕ := 41
def BROKER_PUB_PUBLISHING_CONNECTOR_JMS_WMQ_SUB : ℕ := 42

def BROKER_PUSH_CONSUMING_CONNECTOR_JMS_WMQ_PULL : ℕ := 50
def CONSUMING_CONNECTOR_JMS_WMQ_PUSH_BROKER_PULL : ℕ := 51
def BROKER_PUB_CONSUMING_CONNECTOR_JMS_WMQ_SUB : ℕ := 52

def BROKER_PUSH_PUBLISHING_CONNECTOR_ZMQ_PULL : ℕ := 60
def PUBLISHING_CONNECTOR_ZMQ_PUSH_BROKER_PULL : ℕ := 61
def BROKER_PUB_PUBLISHING_CONNECTOR_ZMQ_SUB : ℕ := 62

def BROKER_PUSH_CONSUMING_CONNECTOR_ZMQ_PULL : ℕ := 70
def CONSUMING_CONNECTOR_ZMQ_PUSH_BROKER_PULL : ℕ := 71
def BROKER_PUB_CONSUMING_CONNECTOR_ZMQ_SUB : ℕ := 72

/-- All 23 offsets of the table, in source order. -/
def offsetTable : List ℕ :=
  [BROKER_PUSH_WORKER_THREAD_PULL, WORKER_THREAD_PUSH_BROKER_PULL,
   BROKER_PUB_WORKER_THREAD_SUB,
   BROKER_PUSH_SINGLETON_PULL, SINGLETON_PUSH_BROKER_PULL,
   BROKER_PUSH_PUBLISHING_CONNECTOR_AMQP_PULL,
   PUBLISHING_CONNECTOR_AMQP_PUSH_BROKER_PULL,
   BROKER_PUB_PUBLISHING_CONNECTOR_AMQP_SUB,
   BROKER_PUSH_CONSUMING_CONNECTOR_AMQP_PULL,
   CONSUMING_CONNECTOR_AMQP_PUSH_BROKER_PULL,
   BROKER_PUB_CONSUMING_CONNECTOR_AMQP_SUB,
   BROKER_PUSH_PUBLISHING_CONNECTOR_JMS_WMQ_PULL,
   PUBLISHING_CONNECTOR_JMS_WMQ_PUSH_BROKER_PULL,
   BROKER_PUB_PUBLISHING_CONNECTOR_JMS_WMQ_SUB,
   BROKER_PUSH_CONSUMING_CONNECTOR_JMS_WMQ_PULL,
   CONSUMING_CONNECTOR_JMS_WMQ_PUSH_BROKER_PULL,
   BROKER_PUB_CONSUMING_CONNECTOR_JMS_WMQ_SUB,
   BROKER_PUSH_PUBLISHING_CONNECTOR_ZMQ_PULL,
   PUBLISHING_CONNECTOR_ZMQ_PUSH_BROKER_PULL,
   BROKER_PUB_PUBLISHING_CONNECTOR_ZMQ_SUB,
   BROKER_PUSH_CONSUMING_CONNECTOR_ZMQ_PULL,
   CONSUMING_CONNECTOR_ZMQ_PUSH_BROKER_PULL,
   BROKER_PUB_CONSUMING_CONNECTOR_ZMQ_SUB]

end PORTS

/-! ## Broker channel addresses computed by `ParallelServer._after_init_common`
(`parallel.py` lines 344-360). -/

/-- Source: `self.broker_push_addr` in `_after_init_common`:
`tcp://host:broker_start_port`. -/
def broker_push_addr (broker_host : String) (broker_start_port : ℕ) : String :=
  "tcp://" ++ broker_host ++ ":" ++ toString broker_start_port

/-- Source: `self.broker_pull_addr` in `_after_init_common`:
`tcp://host:broker_start_port+1`. -/
def broker_pull_addr (broker_host : String) (broker_start_port : ℕ) : String :=
  "tcp://" ++ broker_host ++ ":" ++ toString (broker_start_port + 1)

/-- Source: the `broker_push_port` keyword argument handed to the singleton
server in `_after_init_common`: `broker_start_port+2`. -/
def singleton_broker_push_port (broker_start_port : ℕ) : ℕ :=
  broker_start_port + 2

/-- Source: the `broker_sub_port` keyword argument handed to the singleton
server in `_after_init_common`: `broker_start_port+3`. -/
def singleton_broker_sub_port (broker_start_port : ℕ) : ℕ :=
  broker_start_port + 3

/-! ## Exceptions (`parallel.py`) -/

/-- Source: class `HTTPException` of `parallel.py`: a status code plus a
reason, raised when the error condition maps to an HTTP status code. -/
structure HTTPException where
  status : ℕ
  reason : String
deriving DecidableEq

/-- Python `httplib.FORBIDDEN`. -/
def FORBIDDEN : ℕ := 403

/-- Python `httplib.NOT_FOUND`. -/
def NOT_FOUND : ℕ := 404

/-- Default status of a zope `HTTPTask` response; `executeRequest` only calls
`task.setResponseStatus` on the `HTTPException` path, so every other response
keeps this default. -/
def DEFAULT_STATUS : ℕ := 200

/-- Default reason phrase of a zope `HTTPTask` response. -/
def DEFAULT_REASON : String := "Ok"

/-- Exceptions that can propagate to the top-level handler of
`executeRequest`: the `HTTPException` of `parallel.py`, the `AttributeError`
raised by the dynamic `getattr` lookup in `handle_security`, and an arbitrary
exception raised by the invoked service (carried as its formatted
traceback). -/
inductive PyError where
  | http (e : HTTPException)
  | attrError (attrName : String)
  | serviceError (tb : String)
deriving DecidableEq

/-- Python `traceback.format_exc` applied to a caught exception, modelled as
a fixed rendering of the carried data. -/
def format_exc : PyError → String
  | .http e => "Traceback (most recent call last): HTTPException: " ++ e.reason
  | .attrError n =>
      "Traceback (most recent call last): AttributeError: " ++
        "\x27ZatoHTTPListener\x27 object has no attribute \x27" ++ n ++ "\x27"
  | .serviceError tb => tb

/-! ## Error-to-transport wrapping (`parallel.py` lines 53-61) -/

/-- Modelled from the spec: `server_soap_error` lives in
`zato.server.channel.soap`, a module not present under `src/`; the spec says
the envelope transport wraps the raw message inside the standard SOAP
fault/error envelope. -/
def server_soap_error (msg : String) : String :=
  "<soap:Envelope><soap:Body><soap:Fault>" ++ msg ++
    "</soap:Fault></soap:Body></soap:Envelope>"

/-- Source: `wrap_error_message` of `parallel.py`: wraps an error message in
a transport-specific envelope; for any transport other than the SOAP one the
message is returned as-is.  The `url_type` may be unresolved (`none`), which
is how the Python `None` initial value behaves in the comparison. -/
def wrap_error_message (url_type : Option String) (msg : String) : String :=
  if url_type = some ZATO_URL_TYPE_SOAP then
    server_soap_error msg
  else
    msg

/-! ## The tech-account security validator
(`ZatoHTTPListener._handle_security_tech_account`, `parallel.py` 219-253) -/

/-- Security definition record as read from the URL-security table: the
configured principal name, the stored salted-hash of the password, and the
salt. -/
structure SecDef where
  name : String
  password : String
  salt : String
deriving DecidableEq

/-- Source: the CGI-style header key `X_ZATO_USER` of the `zato_headers`
tuple (hyphenated as `X-Zato-User` on the wire). -/
def X_ZATO_USER : String := "X_ZATO_USER"

/-- Source: the CGI-style header key `X_ZATO_PASSWORD` of the `zato_headers`
tuple (hyphenated as `X-Zato-Password` on the wire). -/
def X_ZATO_PASSWORD : String := "X_ZATO_PASSWORD"

/-- Python `headers.get(key, None)` over the request-headers mapping,
modelled as an association list. -/
def headerGet (headers : List (String × String)) (key : String) : Option String :=
  headers.lookup key

/-- Python falsiness of `headers.get(key, None)`: the key is absent or its
value is the empty string. -/
def headerFalsy (headers : List (String × String)) (key : String) : Bool :=
  match headerGet headers key with
  | none => true
  | some v => v == ""

/-- Rendering of the headers mapping interpolated into the log message
(Python interpolates the dict repr; the exact rendering is opaque to every
claim, only its presence matters). -/
def headersRepr (headers : List (String × String)) : String :=
  "\x7b" ++ String.intercalate ", " (headers.map (fun kv => kv.1 ++ ": " ++ kv.2)) ++ "\x7d"

/-- Source: the message built when one of the two zato headers is missing or
empty: `The header [h] doesn\x27t exist or is empty, URI=[u, headers=[hs]]`. -/
def headerMissingMsg (header uri : String) (headers : List (String × String)) : String :=
  "The header [" ++ header ++ "] doesn\x27t exist or is empty, URI=[" ++ uri ++
    ", headers=[" ++ headersRepr headers ++ "]]"

/-- Source: `msg_template` of `_handle_security_tech_account`:
`The what is incorrect, URI=[uri], X_ZATO_USER=[user]`. -/
def msgTemplate (what uri user : String) : String :=
  "The " ++ what ++ " is incorrect, URI=[" ++ uri ++ "], X_ZATO_USER=[" ++ user ++ "]"

/-- Source: `ZatoHTTPListener._handle_security_tech_account`.  The first
component of the result is the list of internally logged error messages, the
second the outcome: `ok` when validation passes, otherwise the raised
`HTTPException` (status `FORBIDDEN`).  The parameter `sha256hex` is the
external `sha256(...).hexdigest()` primitive.  The two checks after the
header-presence loop deliberately put a different message in the exception
than in the log. -/
def handle_security_tech_account (sha256hex : String → String) (sec_def : SecDef)
    (uri : String) (headers : List (String × String)) :
    List String × Except HTTPException Unit :=
  if headerFalsy headers X_ZATO_USER then
    let msg := headerMissingMsg X_ZATO_USER uri headers
    ([msg], .error ⟨FORBIDDEN, msg⟩)
  else if headerFalsy headers X_ZATO_PASSWORD then
    let msg := headerMissingMsg X_ZATO_PASSWORD uri headers
    ([msg], .error ⟨FORBIDDEN, msg⟩)
  else
    let user := (headerGet headers X_ZATO_USER).getD ""
    let password := (headerGet headers X_ZATO_PASSWORD).getD ""
    if user ≠ sec_def.name then
      ([msgTemplate "username" uri user],
       .error ⟨FORBIDDEN, msgTemplate "username or password" uri user⟩)
    else
      let incoming_password := sha256hex (password ++ ":" ++ sec_def.salt)
      if incoming_password ≠ sec_def.password then
        ([msgTemplate "password" uri user],
         .error ⟨FORBIDDEN, msgTemplate "username or password" uri user⟩)
      else
        ([], .ok ())

/-! ## Security dispatch and request execution
(`ZatoHTTPListener.handle_security` / `executeRequest`, `parallel.py` 256-318) -/

/-- One entry of the URL-security table `self.server.url_security`: the
transport type of the URL, the security definition and its scheme tag. -/
structure UrlData where
  url_type : String
  sec_def : SecDef
  sec_def_type : String
deriving DecidableEq

/-- Source: `ZatoHTTPListener.handle_security`: builds the method name
`_handle_security_` + `sec_def_type.replace('-', '_')` and calls it via
`getattr`.  The only method of the class matching this prefix is
`_handle_security_tech_account`; for every other built name the `getattr`
raises `AttributeError`. -/
def handle_security (sha256hex : String → String) (url_data : UrlData)
    (uri : String) (headers : List (String × String)) :
    List String × Except PyError Unit :=
  let handler_name := "_handle_security_" ++ strReplace url_data.sec_def_type "-" "_"
  if handler_name = "_handle_security_tech_account" then
    let r := handle_security_tech_account sha256hex url_data.sec_def uri headers
    (r.1, r.2.mapError PyError.http)
  else
    ([], .error (.attrError handler_name))

/-- Source: the message logged and raised when the URI is not a key of the
URL-security table. -/
def urlNotFoundMsg (uri : String) : String :=
  "The URL [" ++ uri ++ "] doesn\x27t exist or has no security configuration assigned"

/-- Source: the `Exception caught [tb]` log line of the generic handler. -/
def exceptionCaughtMsg (tb : String) : String :=
  "Exception caught [" ++ tb ++ "]"

/-- Source: the `try` block of `ZatoHTTPListener.executeRequest`: resolve the
URI in the URL-security table (absent entry raises `HTTPException` 404),
run the security dispatch, then invoke the service handler
(`self.server.soap_handler.handle`, an external collaborator passed here as
the parameter `soap_handler`).  Returns the resolved `url_type` (`none`
until an entry is found, exactly like the Python variable initialised to
`None`), the accumulated log lines, and the outcome of the block. -/
def executeRequestTry (sha256hex : String → String)
    (soap_handler : String → List (String × String) → Except PyError String)
    (url_security : List (String × UrlData))
    (uri : String) (headers : List (String × String)) (body : String) :
    Option String × List String × Except PyError String :=
  match url_security.lookup uri with
  | some url_data =>
    let url_type := some url_data.url_type
    let sec := handle_security sha256hex url_data uri headers
    match sec.2 with
    | .ok () =>
      match soap_handler body headers with
      | .ok response => (url_type, sec.1, .ok response)
      | .error e => (url_type, sec.1, .error e)
    | .error e => (url_type, sec.1, .error e)
  | none =>
    let msg := urlNotFoundMsg uri
    (none, [msg], .error (.http ⟨NOT_FOUND, msg⟩))

/-- The single response written back by `executeRequest`: status line,
headers and body, together with the number of `task.write` calls made. -/
structure Response where
  status : ℕ
  reason : String
  contentType : String
  contentLength : ℕ
  body : String
  writes : ℕ
deriving DecidableEq

/-- Source: `ZatoHTTPListener.executeRequest` (`parallel.py` 265-318): the
`try` block above followed by the two `except` clauses (`HTTPException` sets
the response status and wraps its reason; every other exception is logged
and its formatted traceback wrapped), then the `Content-Type` choice on the
resolved `url_type`, the `Content-Length` header, and the single
`task.write`. -/
def executeRequest (sha256hex : String → String)
    (soap_handler : String → List (String × String) → Except PyError String)
    (url_security : List (String × UrlData))
    (uri : String) (headers : List (String × String)) (body : String) :
    Response × List String :=
  let t := executeRequestTry sha256hex soap_handler url_security uri headers body
  let url_type := t.1
  let outcome :=
    match t.2.2 with
    | .ok response => (DEFAULT_STATUS, DEFAULT_REASON, t.2.1, response)
    | .error (.http e) => (e.status, e.reason, t.2.1, wrap_error_message url_type e.reason)
    | .error err =>
        let tb := format_exc err
        (DEFAULT_STATUS, DEFAULT_REASON, t.2.1 ++ [exceptionCaughtMsg tb],
         wrap_error_message url_type tb)
  let content_type := if url_type = some ZATO_URL_TYPE_SOAP then "text/xml" else "text/plain"
  ({ status := outcome.1, reason := outcome.2.1, contentType := content_type,
     contentLength := outcome.2.2.2.length, body := outcome.2.2.2, writes := 1 },
   outcome.2.2.1)

/-! ## The broker subscriber (`ZMQSub` of `zato-broker/src/zato/broker/client.py`) -/

/-- Observable events of one iteration of the `ZMQSub.listen` loop body
after a message has been received: the pre-handler hook call, the handler
call, a `logger.error` emission, and the post-handler hook call with its two
arguments. -/
inductive SubEvent where
  | beforeHook (msg : String)
  | handlerCall (msg : String)
  | logError (text : String)
  | afterHook (msg : String) (e : Option String)
deriving DecidableEq

/-- Source: the template string assigned to `msg` inside the handler
`except` clause of `ZMQSub.listen` (line 86). -/
def couldNotInvokeTemplate : String :=
  "Could not invoke the message handler, msg [{0}] e [{1}]"

/-- Python `t.format(a, b)` for a template using `{0}` and `{1}` exactly
once each, with `a` containing no `{1}` (true of every use below). -/
def pyFormat (t a b : String) : String :=
  strReplace (strReplace t "{0}" a) "{1}" b

/-- Python `traceback.format_exc` applied to the exception raised by the
message handler, which is carried here as its rendered text. -/
def tracebackOf (e : String) : String :=
  "Traceback (most recent call last): " ++ e

/-- Source: the body of the `else:` branch of the `ZMQSub.listen` loop
(lines 80-89), which runs once per received message `msg`: call
`self.on_before_msg_handler(msg)`, call `self.on_message_handler(msg)`; if
the handler raises, rebind `msg` to the error template, log
`msg.format(msg, format_exc(e))`, and finally call
`self.on_after_msg_handler(msg, e)` with whatever `msg` now holds.  The
iteration always returns normally, so the loop continues with the next
message. -/
def processMessage (on_message_handler : String → Except String Unit)
    (msg : String) : List SubEvent :=
  SubEvent.beforeHook msg ::
  SubEvent.handlerCall msg ::
  (match on_message_handler msg with
   | .ok () => [SubEvent.afterHook msg none]
   | .error e =>
     let msg := couldNotInvokeTemplate
     [SubEvent.logError (pyFormat msg msg (tracebackOf e)),
      SubEvent.afterHook msg (some e)])

/-- Attribute state of a `ZMQSub` instance: the `keep_running` flag and the
`socket` attribute.  `none` means the attribute was never assigned, in which
case Python raises `AttributeError` on access; `ZMQSub.__init__` assigns
`zmq_context`, `address`, `on_message_handler`, `sub_patterns` and
`keep_running` but never `self.socket`, and `ZMQSub.listen` keeps its socket
in a local variable, so no method ever assigns it either. -/
structure ZMQSubState where
  keep_running : Bool
  socketAttr : Option Bool
deriving DecidableEq

/-- Source: `ZMQSub.__init__` with the default `keep_running=True`. -/
def zmqSubInit : ZMQSubState :=
  { keep_running := true, socketAttr := none }

/-- Source: `ZMQSub.close` (lines 55-57): set `self.keep_running = False`,
then evaluate `self.socket.close()`.  The attribute access raises
`AttributeError` when `self.socket` was never assigned; otherwise the socket
is closed. -/
def zmqSubClose (s : ZMQSubState) : ZMQSubState × Except String Unit :=
  let s := { s with keep_running := false }
  match s.socketAttr with
  | some _ => ({ s with socketAttr := some false }, .ok ())
  | none =>
      (s, .error "AttributeError: \x27ZMQSub\x27 object has no attribute \x27socket\x27")

/-- Source: the timeout argument of `poller.poll()` in `ZMQSub.listen`
(line 73).  The call passes no timeout, which for a ZeroMQ poller means
block indefinitely until an event arrives (`none`); a bounded-wait poll
would be `some milliseconds`. -/
def listenPollTimeout : Option ℕ := none

/-! ## The task dispatcher
(`_TaskDispatcher.setThreadCount` / `handlerThread`, `parallel.py` 128-200) -/

/-- Source: the inner `while thread_no in threads: thread_no = thread_no + 1`
scan of `setThreadCount`: the first identity at or above `k` that is not in
the thread table. -/
def findFree (threads : Finset ℕ) (k : ℕ) : ℕ :=
  if _h : k ∈ threads then findFree threads (k + 1) else k
termination_by (threads.sup id + 1) - k
decreasing_by
  have hk : k ≤ threads.sup id := Finset.le_sup (f := id) _h
  omega

/-- Source: the `while running < count:` loop of `setThreadCount`, with
`d = count - running` iterations remaining: scan for a free identity from
`thread_no`, register it in the table, spawn the thread, and continue the
scan from the successor. -/
def growThreads : ℕ → Finset ℕ → ℕ → Finset ℕ
  | 0, threads, _ => threads
  | d + 1, threads, thread_no =>
    let tn := findFree threads thread_no
    growThreads d (insert tn threads) (tn + 1)

/-- State of the dispatcher shared between `setThreadCount` and the worker
threads, all mutations of which the source serialises under
`thread_mgmt_lock`: the live-thread table (the keys of the `self.threads`
dict), `self.stop_count`, and the shared FIFO work queue where `none` is the
sentinel (`self.queue.put(None)`) and `some t` a real task. -/
structure DispatcherState where
  threads : Finset ℕ
  stopCount : ℕ
  queue : List (Option ℕ)
deriving DecidableEq

/-- Source: `_TaskDispatcher.setThreadCount(count)` (lines 128-164):
`running = len(threads) - stop_count`; while `running < count` spawn threads
with the next free identities starting the scan at 0; if `running > count`
enqueue `running - count` sentinels and add that amount to `stop_count`. -/
def setThreadCount (count : ℕ) (s : DispatcherState) : DispatcherState :=
  if s.threads.card - s.stopCount < count then
    { s with threads := growThreads (count - (s.threads.card - s.stopCount)) s.threads 0 }
  else if count < s.threads.card - s.stopCount then
    { s with stopCount := s.stopCount + ((s.threads.card - s.stopCount) - count),
             queue := s.queue ++ List.replicate ((s.threads.card - s.stopCount) - count) none }
  else s

/-- Result of running the worker loops until the queue is exhausted or no
live worker remains: the remaining thread table and stop count, the part of
the queue no worker will ever dequeue, and the real tasks that were executed
(in dequeue order). -/
structure DrainResult where
  threads : Finset ℕ
  stopCount : ℕ
  leftover : List (Option ℕ)
  executed : List ℕ
deriving DecidableEq

/-- Source: the dequeue loop of `_TaskDispatcher.handlerThread`
(lines 180-200), iterated over the whole queue: a live worker pops the front
item; a sentinel (`None`) makes that worker break out of its loop, after
which its `finally` block decrements `stop_count` and deletes the worker
from the thread table; a real task is executed (`task.service`, exceptions
caught and logged) and the worker keeps going.  Which of the fungible
workers pops is irrelevant to the table size, the stop count and the
sequence of executed tasks; the model lets the smallest identity pop. -/
def drainAux : List (Option ℕ) → Finset ℕ → ℕ → DrainResult
  | [], threads, stopCount => ⟨threads, stopCount, [], []⟩
  | item :: rest, threads, stopCount =>
    if h : threads.Nonempty then
      match item with
      | none => drainAux rest (threads.erase (threads.min' h)) (stopCount - 1)
      | some t =>
        let r := drainAux rest threads stopCount
        { r with executed := t :: r.executed }
    else ⟨threads, stopCount, item :: rest, []⟩

/-- Run the worker loops of a dispatcher state until its queue is exhausted
or no live worker remains. -/
def drain (s : DispatcherState) : DrainResult :=
  drainAux s.queue s.threads s.stopCount

/-- Well-formedness of a dispatcher state, maintained by the source under
the pool mutex: the queue holds exactly `stop_count` pending sentinels, and
at most `len(threads)` workers have been asked to stop. -/
def DispatcherInv (s : DispatcherState) : Prop :=
  s.queue.countP (fun i => i.isNone) = s.stopCount ∧ s.stopCount ≤ s.threads.card

instance (s : DispatcherState) : Decidable (DispatcherInv s) := by
  unfold DispatcherInv; infer_instance

/-- Spec-side description of identity assignment: the smallest integer not
in the thread table. -/
theorem exists_not_mem_nat (t : Finset ℕ) : ∃ n, n ∉ t :=
  ⟨t.sup id + 1, fun hmem => by
    have h := Finset.le_sup (f := id) hmem
    simp only [id_eq] at h
    omega⟩

/-- Spec-side: the smallest integer identity not currently in the thread
table. -/
def smallestFree (t : Finset ℕ) : ℕ :=
  Nat.find (exists_not_mem_nat t)

/-- Spec-side description of the grow half of the claim: repeatedly insert
the smallest absent identity, `d` times. -/
def greedyGrow (t : Finset ℕ) : ℕ → Finset ℕ
  | 0 => t
  | d + 1 => greedyGrow (insert (smallestFree t) t) d

/-! ## Lemmas about the identity scan and the grow loop -/

theorem findFree_not_mem (threads : Finset ℕ) (k : ℕ) : findFree threads k ∉ threads := by
  rw [findFree]
  split
  · exact findFree_not_mem threads (k + 1)
  · assumption
termination_by (threads.sup id + 1) - k
decreasing_by
  rename_i h
  have hk : k ≤ threads.sup id := Finset.le_sup (f := id) h
  omega

theorem findFree_mem_of_lt (threads : Finset ℕ) (k j : ℕ) (hkj : k ≤ j)
    (hj : j < findFree threads k) : j ∈ threads := by
  rw [findFree] at hj
  by_cases h : k ∈ threads
  · simp only [h, dif_pos] at hj
    rcases Nat.eq_or_lt_of_le hkj with rfl | hlt
    · exact h
    · exact findFree_mem_of_lt threads (k + 1) j hlt hj
  · simp only [h, dif_neg, not_false_iff] at hj
    omega
termination_by (threads.sup id + 1) - k
decreasing_by
  rename_i h
  have hk : k ≤ threads.sup id := Finset.le_sup (f := id) h
  omega

theorem findFree_eq_succ_of_mem (threads : Finset ℕ) (k : ℕ) (h : k ∈ threads) :
    findFree threads k = findFree threads (k + 1) := by
  rw [findFree]
  simp [h]

theorem findFree_zero_eq (threads : Finset ℕ) (k : ℕ) (h : ∀ j < k, j ∈ threads) :
    findFree threads 0 = findFree threads k := by
  induction k with
  | zero => rfl
  | succ k ih =>
    rw [ih (fun j hj => h j (by omega)), findFree_eq_succ_of_mem threads k (h k (by omega))]

theorem findFree_eq_smallestFree (threads : Finset ℕ) (k : ℕ) (h : ∀ j < k, j ∈ threads) :
    findFree threads k = smallestFree threads := by
  rw [← findFree_zero_eq threads k h, smallestFree]
  symm
  rw [Nat.find_eq_iff]
  exact ⟨findFree_not_mem threads 0,
    fun n hn => not_not_intro (findFree_mem_of_lt threads 0 n (Nat.zero_le n) hn)⟩

theorem growThreads_card (d : ℕ) : ∀ (threads : Finset ℕ) (k : ℕ),
    (growThreads d threads k).card = threads.card + d := by
  induction d with
  | zero => intro threads k; rfl
  | succ d ih =>
    intro threads k
    rw [growThreads, ih,
      Finset.card_insert_of_not_mem (findFree_not_mem threads k)]
    omega

/-- The grow loop of the source assigns exactly the greedy
smallest-free-identity sequence, provided every identity below the scan
cursor is already taken (true at the top of `setThreadCount`, where the
cursor starts at 0). -/
theorem growThreads_eq_greedy (d : ℕ) : ∀ (threads : Finset ℕ) (k : ℕ),
    (∀ j < k, j ∈ threads) → growThreads d threads k = greedyGrow threads d := by
  induction d with
  | zero => intro threads k _; rfl
  | succ d ih =>
    intro threads k h
    rw [growThreads, greedyGrow, findFree_eq_smallestFree threads k h]
    apply ih
    intro j hj
    rcases Nat.lt_or_ge j (smallestFree threads) with hlt | hge
    · have hsf := findFree_eq_smallestFree threads 0 (fun j hj => absurd hj (Nat.not_lt_zero j))
      exact Finset.mem_insert_of_mem
        (findFree_mem_of_lt threads 0 j (Nat.zero_le j) (by omega))
    · have hj' : j = smallestFree threads := by omega
      rw [hj']
      exact Finset.mem_insert_self _ _

/-! ## Lemmas about draining the work queue -/

theorem countP_isNone_replicate (k : ℕ) :
    (List.replicate k (none : Option ℕ)).countP (fun i => i.isNone) = k := by
  induction k with
  | zero => rfl
  | succ k ih => simp [List.replicate_succ, List.countP_cons, ih]

theorem drainAux_counts : ∀ (q : List (Option ℕ)) (t : Finset ℕ) (st : ℕ),
    st ≤ t.card → q.countP (fun i => i.isNone) = st →
    (drainAux q t st).threads.card = t.card - st ∧ (drainAux q t st).stopCount = 0 := by
  intro q
  induction q with
  | nil =>
    intro t st hle hcnt
    simp only [List.countP_nil] at hcnt
    simp [drainAux, ← hcnt]
  | cons item rest ih =>
    intro t st hle hcnt
    match item with
    | none =>
      simp [List.countP_cons] at hcnt
      have hst : 1 ≤ st := by omega
      have hne : t.Nonempty := Finset.card_pos.mp (by omega)
      have hmem := t.min'_mem hne
      rw [drainAux, dif_pos hne]
      have := ih (t.erase (t.min' hne)) (st - 1)
        (by rw [Finset.card_erase_of_mem hmem]; omega) (by omega)
      rw [Finset.card_erase_of_mem hmem] at this
      exact ⟨by rw [this.1]; omega, this.2⟩
    | some x =>
      simp [List.countP_cons] at hcnt
      by_cases hne : t.Nonempty
      · rw [drainAux, dif_pos hne]
        exact ih t st hle (by omega)
      · have ht : t.card = 0 := by
          rw [Finset.card_eq_zero]
          exact Finset.not_nonempty_iff_eq_empty.mp hne
        have hst : st = 0 := by omega
        rw [drainAux, dif_neg hne]
        refine ⟨?_, hst⟩
        show t.card = t.card - st
        omega

theorem drainAux_executed : ∀ (q : List (Option ℕ)) (t : Finset ℕ) (st : ℕ),
    st + 1 ≤ t.card → q.countP (fun i => i.isNone) = st →
    (drainAux q t st).executed = q.filterMap id ∧ (drainAux q t st).leftover = [] := by
  intro q
  induction q with
  | nil =>
    intro t st _ _
    exact ⟨rfl, rfl⟩
  | cons item rest ih =>
    intro t st hlt hcnt
    match item with
    | none =>
      simp [List.countP_cons] at hcnt
      have hne : t.Nonempty := Finset.card_pos.mp (by omega)
      have hmem := t.min'_mem hne
      rw [drainAux, dif_pos hne]
      have := ih (t.erase (t.min' hne)) (st - 1)
        (by rw [Finset.card_erase_of_mem hmem]; omega) (by omega)
      simpa using this
    | some x =>
      simp [List.countP_cons] at hcnt
      have hne : t.Nonempty := Finset.card_pos.mp (by omega)
      rw [drainAux, dif_pos hne]
      have := ih t st hlt (by omega)
      simp [this.1, this.2]

/-! ## Helper accessors used by the claim statements -/

/-- Whether a validator outcome is either success or a raised exception whose
status is 403 (FORBIDDEN). -/
def forbiddenOrOk : Except HTTPException Unit → Bool
  | .ok _ => true
  | .error e => e.status == FORBIDDEN

/-- The externally visible message of a validator outcome (empty on
success). -/
def errReason : Except HTTPException Unit → String
  | .ok _ => ""
  | .error e => e.reason

/-! ## Claim theorems -/

/-- C1: for a request handled by the TechAccount validator, a
`ForbiddenError` (HTTP 403) is raised if and only if one of the two headers
`X_ZATO_USER` / `X_ZATO_PASSWORD` is missing or empty, or the supplied user
name differs from the configured principal name, or the salted hash of the
supplied password with the configured salt differs from the stored hash;
when all checks pass the validator returns without raising, and every raised
exception carries status 403. -/
theorem tech_account_forbidden_iff (sha256hex : String → String) (sec_def : SecDef)
    (uri : String) (headers : List (String × String)) :
    ((handle_security_tech_account sha256hex sec_def uri headers).2 = Except.ok () ↔
      headerFalsy headers X_ZATO_USER = false ∧
      headerFalsy headers X_ZATO_PASSWORD = false ∧
      (headerGet headers X_ZATO_USER).getD "" = sec_def.name ∧
      sha256hex ((headerGet headers X_ZATO_PASSWORD).getD "" ++ ":" ++ sec_def.salt) =
        sec_def.password) ∧
    forbiddenOrOk (handle_security_tech_account sha256hex sec_def uri headers).2 = true := by
  simp only [handle_security_tech_account]
  split_ifs with h1 h2 h3 h4 <;> simp_all [forbiddenOrOk]

/-- C2, counterexample to the claim as stated: on the same path `/a`, with
the configured principal `u` and stored hash `p:s` (identity hash, salt
`s`), a request failing the username check (user `eve`) and a request
failing the password check (user `u`, password `x`) both yield 403, but the
externally visible message texts differ, because the message echoes the
supplied user name. -/
theorem tech_account_message_counterexample :
    (handle_security_tech_account (fun s => s) ⟨"u", "p:s", "s"⟩ "/a"
        [("X_ZATO_USER", "eve"), ("X_ZATO_PASSWORD", "p")]).1 =
      [msgTemplate "username" "/a" "eve"] ∧
    (handle_security_tech_account (fun s => s) ⟨"u", "p:s", "s"⟩ "/a"
        [("X_ZATO_USER", "u"), ("X_ZATO_PASSWORD", "x")]).1 =
      [msgTemplate "password" "/a" "u"] ∧
    forbiddenOrOk (handle_security_tech_account (fun s => s) ⟨"u", "p:s", "s"⟩ "/a"
        [("X_ZATO_USER", "eve"), ("X_ZATO_PASSWORD", "p")]).2 = true ∧
    (handle_security_tech_account (fun s => s) ⟨"u", "p:s", "s"⟩ "/a"
        [("X_ZATO_USER", "eve"), ("X_ZATO_PASSWORD", "p")]).2 ≠ Except.ok () ∧
    forbiddenOrOk (handle_security_tech_account (fun s => s) ⟨"u", "p:s", "s"⟩ "/a"
        [("X_ZATO_USER", "u"), ("X_ZATO_PASSWORD", "x")]).2 = true ∧
    (handle_security_tech_account (fun s => s) ⟨"u", "p:s", "s"⟩ "/a"
        [("X_ZATO_USER", "u"), ("X_ZATO_PASSWORD", "x")]).2 ≠ Except.ok () ∧
    errReason (handle_security_tech_account (fun s => s) ⟨"u", "p:s", "s"⟩ "/a"
        [("X_ZATO_USER", "eve"), ("X_ZATO_PASSWORD", "p")]).2 ≠
      errReason (handle_security_tech_account (fun s => s) ⟨"u", "p:s", "s"⟩ "/a"
        [("X_ZATO_USER", "u"), ("X_ZATO_PASSWORD", "x")]).2 := by
  decide

/-- C2 (amended): once both headers are present and non-empty, every
validation failure produces the externally visible 403 message
`The username or password is incorrect, URI=[uri], X_ZATO_USER=[user]`, a
function of the URI and the supplied user name only — the same template
whether the username or the password check failed, so the text never reveals
which — while the internal log line names the failed check: `username` when
the supplied name differs from the configured one, `password` otherwise. -/
theorem tech_account_external_message_uniform (sha256hex : String → String)
    (sec_def : SecDef) (uri : String) (headers : List (String × String))
    (hu : headerFalsy headers X_ZATO_USER = false)
    (hp : headerFalsy headers X_ZATO_PASSWORD = false)
    (herr : (handle_security_tech_account sha256hex sec_def uri headers).2 ≠ Except.ok ()) :
    errReason (handle_security_tech_account sha256hex sec_def uri headers).2 =
      msgTemplate "username or password" uri ((headerGet headers X_ZATO_USER).getD "") ∧
    ((headerGet headers X_ZATO_USER).getD "" ≠ sec_def.name →
      (handle_security_tech_account sha256hex sec_def uri headers).1 =
        [msgTemplate "username" uri ((headerGet headers X_ZATO_USER).getD "")]) ∧
    ((headerGet headers X_ZATO_USER).getD "" = sec_def.name →
      (handle_security_tech_account sha256hex sec_def uri headers).1 =
        [msgTemplate "password" uri ((headerGet headers X_ZATO_USER).getD "")]) := by
  simp only [handle_security_tech_account, hu, hp, Bool.false_eq_true,
    if_false] at herr ⊢
  split_ifs at herr ⊢ with h3 h4 <;> simp_all [errReason]

theorem tech_account_external_message_uniform_witness :
    headerFalsy [("X_ZATO_USER", "eve"), ("X_ZATO_PASSWORD", "p")] X_ZATO_USER = false ∧
    headerFalsy [("X_ZATO_USER", "eve"), ("X_ZATO_PASSWORD", "p")] X_ZATO_PASSWORD = false ∧
    (handle_security_tech_account (fun _ => "H") ⟨"u", "X", "s"⟩ "/a"
        [("X_ZATO_USER", "eve"), ("X_ZATO_PASSWORD", "p")]).2 ≠ Except.ok () ∧
    errReason (handle_security_tech_account (fun _ => "H") ⟨"u", "X", "s"⟩ "/a"
        [("X_ZATO_USER", "eve"), ("X_ZATO_PASSWORD", "p")]).2 =
      msgTemplate "username or password" "/a"
        ((headerGet [("X_ZATO_USER", "eve"), ("X_ZATO_PASSWORD", "p")] X_ZATO_USER).getD "") :=
  ⟨by decide, by decide, by decide,
    (tech_account_external_message_uniform (fun _ => "H") ⟨"u", "X", "s"⟩ "/a"
      [("X_ZATO_USER", "eve"), ("X_ZATO_PASSWORD", "p")]
      (by decide) (by decide) (by decide)).1⟩

/-- C3: a request whose URI is not a key of the URL-security table gets a
404 response whatever its headers (the method is never consulted on this
path), with the not-found message rendered through the generic plain path:
no envelope wrapping and Content-Type `text/plain`, the transport type never
having been resolved. -/
theorem executeRequest_unknown_path (sha256hex : String → String)
    (soap_handler : String → List (String × String) → Except PyError String)
    (url_security : List (String × UrlData))
    (uri : String) (headers : List (String × String)) (body : String)
    (h : url_security.lookup uri = none) :
    ((executeRequest sha256hex soap_handler url_security uri headers body).1.status =
        NOT_FOUND) ∧
    (executeRequest sha256hex soap_handler url_security uri headers body).1.reason =
      urlNotFoundMsg uri ∧
    (executeRequest sha256hex soap_handler url_security uri headers body).1.contentType =
      "text/plain" ∧
    (executeRequest sha256hex soap_handler url_security uri headers body).1.body =
      urlNotFoundMsg uri ∧
    (executeRequest sha256hex soap_handler url_security uri headers body).1.body =
      wrap_error_message none (urlNotFoundMsg uri) := by
  simp [executeRequest, executeRequestTry, h, wrap_error_message]

theorem executeRequest_unknown_path_witness :
    (([] : List (String × UrlData)).lookup "/missing" = none) ∧
    ((executeRequest (fun s => s) (fun b _ => Except.ok b) [] "/missing" [] "").1.status =
        NOT_FOUND) ∧
    (executeRequest (fun s => s) (fun b _ => Except.ok b) [] "/missing" [] "").1.contentType =
      "text/plain" :=
  ⟨by decide,
    (executeRequest_unknown_path (fun s => s) (fun b _ => Except.ok b) [] "/missing" [] ""
      (by decide)).1,
    (executeRequest_unknown_path (fun s => s) (fun b _ => Except.ok b) [] "/missing" [] ""
      (by decide)).2.2.1⟩

/-- C4: for every request, `executeRequest` performs exactly one write,
sets Content-Length to the length of the written body, sets Content-Type to
`text/xml` exactly when the resolved transport is the SOAP envelope type and
to `text/plain` otherwise (including the unresolved, path-not-found case),
and converts every exception of the try block into a transport-wrapped error
body; the executor is a total function, so no exception reaches the network
layer. -/
theorem executeRequest_wellformed (sha256hex : String → String)
    (soap_handler : String → List (String × String) → Except PyError String)
    (url_security : List (String × UrlData))
    (uri : String) (headers : List (String × String)) (body : String) :
    ((executeRequest sha256hex soap_handler url_security uri headers body).1.writes = 1) ∧
    (executeRequest sha256hex soap_handler url_security uri headers body).1.contentLength =
      (executeRequest sha256hex soap_handler url_security uri headers body).1.body.length ∧
    (executeRequest sha256hex soap_handler url_security uri headers body).1.contentType =
      (if (executeRequestTry sha256hex soap_handler url_security uri headers body).1 =
          some ZATO_URL_TYPE_SOAP then "text/xml" else "text/plain") ∧
    (executeRequest sha256hex soap_handler url_security uri headers body).1.body =
      (match (executeRequestTry sha256hex soap_handler url_security uri headers body).2.2 with
       | .ok response => response
       | .error (.http e) =>
           wrap_error_message
             (executeRequestTry sha256hex soap_handler url_security uri headers body).1 e.reason
       | .error err =>
           wrap_error_message
             (executeRequestTry sha256hex soap_handler url_security uri headers body).1
             (format_exc err)) := by
  cases hE : (executeRequestTry sha256hex soap_handler url_security uri headers body).2.2 with
  | ok v => simp [executeRequest, hE]
  | error e => cases e <;> simp [executeRequest, hE]

/-- C5: `wrap_error_message` is a total function (it is defined for every
transport tag and message, never raising), and for every transport other
than the SOAP envelope one — including the unresolved `none` — it returns
the message unchanged. -/
theorem wrap_error_message_non_soap (url_type : Option String) (msg : String)
    (h : url_type ≠ some ZATO_URL_TYPE_SOAP) :
    wrap_error_message url_type msg = msg := by
  simp [wrap_error_message, h]

theorem wrap_error_message_non_soap_witness :
    ((none : Option String) ≠ some ZATO_URL_TYPE_SOAP) ∧
    wrap_error_message none "oops" = "oops" :=
  ⟨by decide, wrap_error_message_non_soap none "oops" (by decide)⟩

/-! ## setThreadCount case lemmas -/

theorem setThreadCount_grow_eq (s : DispatcherState) (n : ℕ)
    (h : s.threads.card - s.stopCount < n) :
    setThreadCount n s =
      { s with threads := growThreads (n - (s.threads.card - s.stopCount)) s.threads 0 } := by
  unfold setThreadCount
  rw [if_pos h]

theorem setThreadCount_shrink_eq (s : DispatcherState) (n : ℕ)
    (h : n < s.threads.card - s.stopCount) :
    setThreadCount n s = { s with
      stopCount := s.stopCount + ((s.threads.card - s.stopCount) - n),
      queue := s.queue ++ List.replicate ((s.threads.card - s.stopCount) - n) none } := by
  unfold setThreadCount
  rw [if_neg (by omega), if_pos h]

theorem setThreadCount_eq_self (s : DispatcherState) (n : ℕ)
    (h : s.threads.card - s.stopCount = n) :
    setThreadCount n s = s := by
  unfold setThreadCount
  rw [if_neg (by omega), if_neg (by omega)]

theorem setThreadCount_running (s : DispatcherState) (n : ℕ) (hInv : DispatcherInv s) :
    (setThreadCount n s).threads.card - (setThreadCount n s).stopCount = n := by
  obtain ⟨hcnt, hle⟩ := hInv
  rcases Nat.lt_trichotomy (s.threads.card - s.stopCount) n with h | h | h
  · rw [setThreadCount_grow_eq s n h]
    show (growThreads (n - (s.threads.card - s.stopCount)) s.threads 0).card - s.stopCount = n
    rw [growThreads_card]
    omega
  · rw [setThreadCount_eq_self s n h]
    omega
  · rw [setThreadCount_shrink_eq s n h]
    show s.threads.card - (s.stopCount + ((s.threads.card - s.stopCount) - n)) = n
    omega

theorem setThreadCount_inv (s : DispatcherState) (n : ℕ) (hInv : DispatcherInv s) :
    DispatcherInv (setThreadCount n s) := by
  obtain ⟨hcnt, hle⟩ := hInv
  rcases Nat.lt_trichotomy (s.threads.card - s.stopCount) n with h | h | h
  · rw [setThreadCount_grow_eq s n h]
    refine ⟨hcnt, ?_⟩
    show s.stopCount ≤ (growThreads (n - (s.threads.card - s.stopCount)) s.threads 0).card
    rw [growThreads_card]
    omega
  · rw [setThreadCount_eq_self s n h]
    exact ⟨hcnt, hle⟩
  · rw [setThreadCount_shrink_eq s n h]
    constructor
    · show (s.queue ++ List.replicate ((s.threads.card - s.stopCount) - n) none).countP _ =
        s.stopCount + ((s.threads.card - s.stopCount) - n)
      rw [List.countP_append, countP_isNone_replicate, hcnt]
    · show s.stopCount + ((s.threads.card - s.stopCount) - n) ≤ s.threads.card
      omega

theorem filterMap_id_replicate_none (k : ℕ) :
    (List.replicate k (none : Option ℕ)).filterMap id = [] := by
  induction k with
  | zero => rfl
  | succ k ih => simp [List.replicate_succ, ih]

/-! ## Remaining claim theorems -/

set_option maxRecDepth 40000 in
/-- C6 demonstration of the code slip in the handler `except` clause of
`ZMQSub.listen`: for a received message `msg-1` whose handler raises
`ValueError: boom`, the pre-hook and the handler are invoked with the
message in order, but the `except` clause rebinds `msg` before using it, so
the log line is the template formatted with itself (the offending message
`msg-1` appears nowhere in it) and the post-handler hook receives the
template string instead of the message; a successful message `msg-2` shows
the intended in-order hook sequence, and in both cases the iteration ends
normally so the loop continues. -/
theorem zmqsub_handler_error_mishandled :
    processMessage (fun _ => Except.error "ValueError: boom") "msg-1" =
      [SubEvent.beforeHook "msg-1",
       SubEvent.handlerCall "msg-1",
       SubEvent.logError (pyFormat couldNotInvokeTemplate couldNotInvokeTemplate
         (tracebackOf "ValueError: boom")),
       SubEvent.afterHook couldNotInvokeTemplate (some "ValueError: boom")] ∧
    couldNotInvokeTemplate ≠ "msg-1" ∧
    strReplace (pyFormat couldNotInvokeTemplate couldNotInvokeTemplate
        (tracebackOf "ValueError: boom")) "msg-1" "" =
      pyFormat couldNotInvokeTemplate couldNotInvokeTemplate
        (tracebackOf "ValueError: boom") ∧
    processMessage (fun _ => Except.ok ()) "msg-2" =
      [SubEvent.beforeHook "msg-2", SubEvent.handlerCall "msg-2",
       SubEvent.afterHook "msg-2" none] := by
  decide

/-- C7 demonstration of the code slips around `ZMQSub.close`: on the state
`ZMQSub.__init__` builds (and which `listen` never changes, its socket being
a local variable), `close()` does flip `keep_running` to `False` but then
raises `AttributeError` on `self.socket`, so it never cleanly releases the
connection and a second call raises again instead of being an idempotent
no-op; moreover the `poller.poll()` of the listen loop passes no timeout, an
unbounded blocking wait, so the flag is only re-polled after the next
message arrives. -/
theorem zmqsub_close_raises :
    (zmqSubClose zmqSubInit).1.keep_running = false ∧
    (zmqSubClose zmqSubInit).2 =
      Except.error "AttributeError: \x27ZMQSub\x27 object has no attribute \x27socket\x27" ∧
    (zmqSubClose (zmqSubClose zmqSubInit).1).2 =
      Except.error "AttributeError: \x27ZMQSub\x27 object has no attribute \x27socket\x27" ∧
    listenPollTimeout = none := by
  decide

/-- C8, counterexample to the claim as stated: one worker (identity 0), a
call `setThreadCount 0` enqueuing a sentinel, then a real task `7` enqueued,
then a second (no-op) `setThreadCount 0` — the last resize of the sequence.
Draining runs the worker into the sentinel first, so it exits and the task
`7`, enqueued before the last resize, is left on the queue forever: nothing
executes it, although the claim promises no such task is dropped. -/
theorem setThreadCount_drop_counterexample :
    setThreadCount 0 (⟨{0}, 0, []⟩ : DispatcherState) = ⟨{0}, 1, [none]⟩ ∧
    setThreadCount 0 (⟨{0}, 1, [none, some 7]⟩ : DispatcherState) =
      ⟨{0}, 1, [none, some 7]⟩ ∧
    DispatcherInv (⟨{0}, 1, [none, some 7]⟩ : DispatcherState) ∧
    (⟨{0}, 1, [none, some 7]⟩ : DispatcherState).queue.filterMap id = [7] ∧
    (drain (setThreadCount 0 ⟨{0}, 1, [none, some 7]⟩)).executed = [] ∧
    (drain (setThreadCount 0 ⟨{0}, 1, [none, some 7]⟩)).leftover = [some 7] ∧
    (drain (setThreadCount 0 ⟨{0}, 1, [none, some 7]⟩)).threads = ∅ := by
  decide

/-- C8 (amended): from any well-formed dispatcher state — in particular any
state reached by a sequence of resize calls, since the invariant is
preserved — the final `setThreadCount n` leaves the running count at exactly
`n`; a growing call spawns exactly `n - running` threads, assigned precisely
the greedy smallest-absent identities, and touches neither the queue nor the
stop count; a shrinking call enqueues exactly `running - n` sentinels behind
the queued work and raises the stop count by the same amount; once every
sentinel has been dequeued exactly `n` live workers remain; and provided
`n ≥ 1`, every real task in the queue (in particular every task enqueued
before this last resize) is executed, none is dropped.  With `n = 0` a
queued task can be dropped, as the counterexample shows. -/
theorem setThreadCount_convergent (s : DispatcherState) (n : ℕ)
    (hInv : DispatcherInv s) (hn : 1 ≤ n) :
    DispatcherInv (setThreadCount n s) ∧
    (setThreadCount n s).threads.card - (setThreadCount n s).stopCount = n ∧
    (s.threads.card - s.stopCount < n →
      (setThreadCount n s).threads =
        greedyGrow s.threads (n - (s.threads.card - s.stopCount)) ∧
      (setThreadCount n s).threads.card =
        s.threads.card + (n - (s.threads.card - s.stopCount)) ∧
      (setThreadCount n s).queue = s.queue ∧
      (setThreadCount n s).stopCount = s.stopCount) ∧
    (n < s.threads.card - s.stopCount →
      (setThreadCount n s).queue =
        s.queue ++ List.replicate ((s.threads.card - s.stopCount) - n) none ∧
      (setThreadCount n s).stopCount =
        s.stopCount + ((s.threads.card - s.stopCount) - n) ∧
      (setThreadCount n s).threads = s.threads) ∧
    (drain (setThreadCount n s)).threads.card = n ∧
    (drain (setThreadCount n s)).stopCount = 0 ∧
    (drain (setThreadCount n s)).executed = (setThreadCount n s).queue.filterMap id ∧
    (setThreadCount n s).queue.filterMap id = s.queue.filterMap id ∧
    (drain (setThreadCount n s)).leftover = [] := by
  have hInv' := setThreadCount_inv s n hInv
  have hrun := setThreadCount_running s n hInv
  obtain ⟨hcnt', hle'⟩ := hInv'
  have hcounts := drainAux_counts (setThreadCount n s).queue (setThreadCount n s).threads
    (setThreadCount n s).stopCount hle' hcnt'
  have hexec := drainAux_executed (setThreadCount n s).queue (setThreadCount n s).threads
    (setThreadCount n s).stopCount (by omega) hcnt'
  refine ⟨⟨hcnt', hle'⟩, hrun, ?_, ?_, ?_, hcounts.2, hexec.1, ?_, hexec.2⟩
  · intro h
    rw [setThreadCount_grow_eq s n h]
    refine ⟨growThreads_eq_greedy _ _ _ (fun j hj => absurd hj (Nat.not_lt_zero j)),
      ?_, rfl, rfl⟩
    show (growThreads (n - (s.threads.card - s.stopCount)) s.threads 0).card = _
    exact growThreads_card _ _ _
  · intro h
    rw [setThreadCount_shrink_eq s n h]
    exact ⟨rfl, rfl, rfl⟩
  · show (drainAux (setThreadCount n s).queue (setThreadCount n s).threads
      (setThreadCount n s).stopCount).threads.card = n
    omega
  · rcases Nat.lt_trichotomy (s.threads.card - s.stopCount) n with h | h | h
    · rw [setThreadCount_grow_eq s n h]
    · rw [setThreadCount_eq_self s n h]
    · rw [setThreadCount_shrink_eq s n h]
      show (s.queue ++ List.replicate ((s.threads.card - s.stopCount) - n) none).filterMap id =
        s.queue.filterMap id
      rw [List.filterMap_append, filterMap_id_replicate_none, List.append_nil]

theorem setThreadCount_convergent_witness :
    DispatcherInv (⟨∅, 0, []⟩ : DispatcherState) ∧ 1 ≤ 2 ∧
    (drain (setThreadCount 2 ⟨∅, 0, []⟩)).threads.card = 2 :=
  ⟨by decide, by decide,
    (setThreadCount_convergent ⟨∅, 0, []⟩ 2 (by decide) (by decide)).2.2.2.2.1⟩

/-- C9, counterexample to the claim as stated: with cluster base port 100,
`_after_init_common` hands the singleton server the ports 102 and 103, while
the offset table of `zato.common` puts the broker-to-singleton channel at
offset 10 and the singleton-to-broker channel at offset 11, so neither
singleton address is base port plus its table offset. -/
theorem singleton_ports_counterexample :
    singleton_broker_push_port 100 = 102 ∧
    100 + PORTS.BROKER_PUSH_SINGLETON_PULL = 110 ∧
    singleton_broker_push_port 100 ≠ 100 + PORTS.BROKER_PUSH_SINGLETON_PULL ∧
    singleton_broker_sub_port 100 = 103 ∧
    100 + PORTS.SINGLETON_PUSH_BROKER_PULL = 111 ∧
    singleton_broker_sub_port 100 ≠ 100 + PORTS.SINGLETON_PUSH_BROKER_PULL := by
  decide

/-- C9 (amended): the worker-thread channel addresses built by
`_after_init_common` do follow the offset table (base plus offset 0 for the
broker-to-worker push/pull address, base plus offset 1 for the
worker-to-broker address), and all offsets in the table are pairwise
distinct; but the singleton channels are bound at base+2 and base+3,
hard-coded, which are not the offsets (10 and 11) the table assigns to the
broker-to-singleton and singleton-to-broker channels. -/
theorem broker_ports_layout (broker_host : String) (broker_start_port : ℕ) :
    broker_push_addr broker_host broker_start_port =
      "tcp://" ++ broker_host ++ ":" ++
        toString (broker_start_port + PORTS.BROKER_PUSH_WORKER_THREAD_PULL) ∧
    broker_pull_addr broker_host broker_start_port =
      "tcp://" ++ broker_host ++ ":" ++
        toString (broker_start_port + PORTS.WORKER_THREAD_PUSH_BROKER_PULL) ∧
    singleton_broker_push_port broker_start_port = broker_start_port + 2 ∧
    singleton_broker_sub_port broker_start_port = broker_start_port + 3 ∧
    singleton_broker_push_port broker_start_port ≠
      broker_start_port + PORTS.BROKER_PUSH_SINGLETON_PULL ∧
    singleton_broker_sub_port broker_start_port ≠
      broker_start_port + PORTS.SINGLETON_PUSH_BROKER_PULL ∧
    PORTS.offsetTable.Nodup := by
  refine ⟨?_, rfl, rfl, rfl, ?_, ?_, by decide⟩
  · simp [broker_push_addr, PORTS.BROKER_PUSH_WORKER_THREAD_PULL]
  · unfold singleton_broker_push_port PORTS.BROKER_PUSH_SINGLETON_PULL
    omega
  · unfold singleton_broker_sub_port PORTS.SINGLETON_PUSH_BROKER_PULL
    omega

/-- C10: a request whose URI has a policy in the table but whose scheme tag
builds a handler name other than `_handle_security_tech_account` is not
answered with 403: the `getattr` raises `AttributeError`, the generic
top-level clause catches it, the response keeps the default status (200,
never 403) and carries the formatted traceback of that exception as its
body (wrapped only when the resolved transport is the SOAP one). -/
theorem unknown_scheme_generic_error (sha256hex : String → String)
    (soap_handler : String → List (String × String) → Except PyError String)
    (url_security : List (String × UrlData))
    (uri : String) (headers : List (String × String)) (body : String) (url_data : UrlData)
    (hfound : url_security.lookup uri = some url_data)
    (hscheme : "_handle_security_" ++ strReplace url_data.sec_def_type "-" "_" ≠
      "_handle_security_tech_account") :
    ((executeRequest sha256hex soap_handler url_security uri headers body).1.status =
      DEFAULT_STATUS) ∧
    ((executeRequest sha256hex soap_handler url_security uri headers body).1.status ≠
      FORBIDDEN) ∧
    ((executeRequest sha256hex soap_handler url_security uri headers body).1.body =
      wrap_error_message (some url_data.url_type)
        (format_exc (PyError.attrError
          ("_handle_security_" ++ strReplace url_data.sec_def_type "-" "_")))) ∧
    (url_data.url_type ≠ ZATO_URL_TYPE_SOAP →
      (executeRequest sha256hex soap_handler url_security uri headers body).1.body =
        format_exc (PyError.attrError
          ("_handle_security_" ++ strReplace url_data.sec_def_type "-" "_"))) := by
  have hbody : (executeRequest sha256hex soap_handler url_security uri headers body).1.body =
      wrap_error_message (some url_data.url_type)
        (format_exc (PyError.attrError
          ("_handle_security_" ++ strReplace url_data.sec_def_type "-" "_"))) := by
    simp [executeRequest, executeRequestTry, handle_security, hfound, hscheme]
  refine ⟨?_, ?_, hbody, ?_⟩
  · simp [executeRequest, executeRequestTry, handle_security, hfound, hscheme]
  · simp [executeRequest, executeRequestTry, handle_security, hfound, hscheme,
      DEFAULT_STATUS, FORBIDDEN]
  · intro h
    rw [hbody, wrap_error_message_non_soap _ _ (by simp [h])]

theorem unknown_scheme_generic_error_witness :
    ([("/a", (⟨"plain_http", ⟨"u", "p", "s"⟩, "basic_auth"⟩ : UrlData))].lookup "/a" =
      some (⟨"plain_http", ⟨"u", "p", "s"⟩, "basic_auth"⟩ : UrlData)) ∧
    ("_handle_security_" ++ strReplace "basic_auth" "-" "_" ≠
      "_handle_security_tech_account") ∧
    (executeRequest (fun s => s) (fun b _ => Except.ok b)
      [("/a", ⟨"plain_http", ⟨"u", "p", "s"⟩, "basic_auth"⟩)] "/a" [] "").1.status =
      DEFAULT_STATUS :=
  ⟨by decide, by decide,
    (unknown_scheme_generic_error (fun s => s) (fun b _ => Except.ok b)
      [("/a", ⟨"plain_http", ⟨"u", "p", "s"⟩, "basic_auth"⟩)] "/a" [] ""
      ⟨"plain_http", ⟨"u", "p", "s"⟩, "basic_auth"⟩ (by decide) (by decide)).1⟩
